import Mathlib

/-!
Verification of the SOAP-to-REST proxy (`rest-soap-proxy`).

This file shallowly embeds the parts of the program that the claims are
about:

* `wsdl_converter.py` — `WSDLConverter.xsd_to_json_schema`,
  `_is_wrapper_list_type`, `_resolve_type_name`, and the service-name
  selection in `convert`;
* `soap_translator.py` — `SOAPTranslator._normalize_parameters` and
  `_serialize_zeep_result`;
* `gateway_client.py` — `register_service` / `unregister_service` with an
  explicit in-memory vs. committed database-session model;
* `app.py` — the `delete_service`, `unregister_from_gateway` and
  `execute_soap_operation` endpoints (their catalog/gateway effects).

JSON values are modelled by an inductive `Json`; Python dict insertion
order is modelled by association lists, and Python dict assignment by an
update-or-append operation.  The zeep XSD type graph (which may be cyclic
through object references) is modelled as a finite environment mapping
object identities (`Nat`) to type nodes; recursion in the translator is
realised with a fuel parameter plus a proof that any fuel beyond the
number of identities in the environment yields the same result, which is
exactly the translator's termination argument (the per-call visited set).
-/

/-- JSON values.  Object members are kept in insertion order, mirroring
Python dicts (insertion-ordered since 3.7) and the JSONB round-trip used
by the catalog. Numbers are modelled by `Int` (the claims only involve
integral numbers). -/
inductive Json where
  | null : Json
  | bool : Bool → Json
  | num : Int → Json
  | str : String → Json
  | arr : List Json → Json
  | obj : List (String × Json) → Json

/-- Dictionary lookup on a JSON object (Python `d[k]` / `d.get(k)`);
`none` when the key is missing or the value is not an object. -/
def Json.getKey : Json → String → Option Json
  | Json.obj kvs, k =>
      match kvs.find? (fun p => p.1 == k) with
      | some p => some p.2
      | none => none
  | _, _ => none

/-- Python dict assignment `d[k] = v` on an association list: replaces the
value in place when the key is present, appends at the end otherwise. -/
def setKeyList (kvs : List (String × Json)) (k : String) (v : Json) :
    List (String × Json) :=
  if kvs.any (fun p => p.1 == k) then
    kvs.map (fun p => if p.1 == k then (k, v) else p)
  else kvs ++ [(k, v)]

/-- `maxOccurs` of an XSD element as zeep exposes it.  zeep reports
unbounded occurrence as `None` or the string `"unbounded"`
(`wsdl_converter.py` line 182 treats both alike), collapsed here into
`unbounded`; bounded occurrence is an integer. -/
inductive MaxOccurs where
  | unbounded : MaxOccurs
  | num : Nat → MaxOccurs
deriving DecidableEq

/-- `min_occurs` of an XSD element: the attribute may be missing on the
zeep object (`getattr(element_obj, 'min_occurs', 1)` then yields 1), may
be Python `None`, or an integer. -/
inductive MinOccurs where
  | absent : MinOccurs
  | null : MinOccurs
  | num : Nat → MinOccurs
deriving DecidableEq

/-- An entry of a zeep complex type's `elements` list: the element name,
the object identity of its type (`element_obj.type`), its cardinality
attributes, the `is_optional` flag and the `documentation` string. -/
structure XsdElement where
  name : String
  typeRef : Nat
  maxOccurs : MaxOccurs
  minOccurs : MinOccurs
  isOptional : Bool
  doc : Option String
deriving DecidableEq

/-- A node of the parsed XSD type graph as the converter introspects it:
the (possibly qualified) type name, the optional `elements` list of a
complex type (`hasattr(xsd_type, 'elements')`), and the optional
`item_type` of an explicit array type.  Children are referenced by object
identity so that cyclic graphs are representable. -/
structure XsdTypeNode where
  name : Option String
  elements : Option (List XsdElement)
  itemType : Option Nat
deriving DecidableEq

/-- A finite XSD type graph: object identity → node. -/
abbrev XsdEnv := List (Nat × XsdTypeNode)

/-- Resolve an object identity to its node. -/
def lookupEnv (env : XsdEnv) (tid : Nat) : Option XsdTypeNode :=
  match (show List (Nat × XsdTypeNode) from env).find? (fun p => p.1 == tid) with
  | some p => some p.2
  | none => none

/-- Node used when an identity is absent from the environment: it has no
name, no `elements` and no `item_type`, so the translator can only reach
its fallback branch on it. -/
def defaultNode : XsdTypeNode := ⟨none, none, none⟩

def getNode (env : XsdEnv) (tid : Nat) : XsdTypeNode :=
  (lookupEnv env tid).getD defaultNode

/-- Python `str.split(sep)` for a one-character separator, on the
character list of the string. -/
def splitOnCharAux (c : Char) : List Char → List Char → List (List Char)
  | [], acc => [acc.reverse]
  | x :: xs, acc =>
      if x = c then acc.reverse :: splitOnCharAux c xs []
      else splitOnCharAux c xs (x :: acc)

def splitOnChar (c : Char) (l : List Char) : List (List Char) :=
  splitOnCharAux c l []

/-- `WSDLConverter._resolve_type_name` (wsdl_converter.py lines 135-159):
strips Clark notation `\x7buri\x7dlocal` (split on the closing brace,
keep the last piece) and prefixed names `p:local` (split on the colon,
keep the last piece) down to the local name. -/
def resolve_type_name : Option String → Option String
  | none => none
  | some s =>
      match s.data with
      | [] => some s
      | c :: _ =>
          if c = '\x7b' then
            some (String.mk ((splitOnChar '\x7d' s.data).getLastD s.data))
          else if s.data.contains ':' then
            some (String.mk ((splitOnChar ':' s.data).getLastD s.data))
          else some s

/-- The `XSD_TO_JSON_TYPE` table of `xsd_to_json_schema`
(wsdl_converter.py lines 208-233). -/
def XSD_TO_JSON_TYPE : List (String × String) :=
  [("string", "string"), ("int", "integer"), ("integer", "integer"),
   ("long", "integer"), ("short", "integer"), ("byte", "integer"),
   ("unsignedLong", "integer"), ("unsignedInt", "integer"),
   ("unsignedShort", "integer"), ("unsignedByte", "integer"),
   ("positiveInteger", "integer"), ("nonNegativeInteger", "integer"),
   ("negativeInteger", "integer"), ("nonPositiveInteger", "integer"),
   ("decimal", "number"), ("float", "number"), ("double", "number"),
   ("boolean", "boolean"), ("date", "string"), ("dateTime", "string"),
   ("time", "string"), ("base64Binary", "string"), ("hexBinary", "string"),
   ("anyURI", "string")]

/-- Table lookup `type_name in XSD_TO_JSON_TYPE` (the Python guard
`if type_name and ...` is subsumed: neither `None` nor `""` is a key). -/
def lookupPrim : Option String → Option String
  | none => none
  | some s =>
      match XSD_TO_JSON_TYPE.find? (fun p => p.1 == s) with
      | some p => some p.2
      | none => none

/-- Simple-type schema (wsdl_converter.py lines 239-243): the mapped JSON
type, plus a `format` for the three temporal types. -/
def primSchema (tn : String) (jty : String) : Json :=
  if tn == "date" || tn == "dateTime" || tn == "time" then
    Json.obj [("type", Json.str jty), ("format", Json.str tn)]
  else
    Json.obj [("type", Json.str jty)]

/-- The cardinality test used both by `_is_wrapper_list_type` (line 183)
and by the per-element array rule (line 279): unbounded, or an integer
greater than 1. -/
def maxOccursIsArray : MaxOccurs → Bool
  | MaxOccurs.unbounded => true
  | MaxOccurs.num n => decide (1 < n)

/-- `WSDLConverter._is_wrapper_list_type` (wsdl_converter.py lines
161-186): a type whose `elements` list has exactly one entry with
unbounded-or-greater-than-one `max_occurs`; returns the inner element. -/
def is_wrapper_list_type (node : XsdTypeNode) : Option XsdElement :=
  match node.elements with
  | some [e] => if maxOccursIsArray e.maxOccurs then some e else none
  | _ => none

/-- The effective `min_occurs` computed at wsdl_converter.py lines
276-299: attribute absent → 1 (the `getattr` default); Python `None` →
0 when `is_optional` else 1; an integer is taken as-is. -/
def effectiveMinOccurs (e : XsdElement) : Nat :=
  match e.minOccurs with
  | MinOccurs.absent => 1
  | MinOccurs.null => if e.isOptional then 0 else 1
  | MinOccurs.num n => n

/-- Attach the element `documentation` to a property schema
(wsdl_converter.py lines 292-293).  The guard mirrors Python truthiness:
a missing or empty string adds nothing.  Every translator result is a
JSON object, so the non-object arm is unreachable. -/
def addDescription (j : Json) (d : Option String) : Json :=
  match d with
  | none => j
  | some s =>
      if s == "" then j
      else
        match j with
        | Json.obj kvs => Json.obj (setKeyList kvs "description" (Json.str s))
        | other => other

/-- Python `str(...)` of the resolved type name as it appears inside the
circular-reference message (an absent name prints as `None`). -/
def pyStrOptName : Option String → String
  | some s => s
  | none => "None"

/-- The property schema of one element of a complex type
(wsdl_converter.py lines 278-293): an array wrapper when `max_occurs`
says so, the plain translation otherwise, plus the copied
`documentation`.  `rec` is the recursive translator call at the already
extended visited set. -/
def elemPropSchema (rec : List Nat → Nat → Json) (visitedNew : List Nat)
    (e : XsdElement) : Json :=
  addDescription
    (if maxOccursIsArray e.maxOccurs then
      Json.obj [("type", Json.str "array"), ("items", rec visitedNew e.typeRef)]
    else rec visitedNew e.typeRef) e.doc

/-- Assembly of the complex-type object schema (wsdl_converter.py lines
263-307): keys in the order `type`, `properties`, `required`, with the
`required` key deleted when the list is empty. -/
def mkObjectSchema (props : List (String × Json)) (req : List String) : Json :=
  if req.isEmpty then
    Json.obj [("type", Json.str "object"), ("properties", Json.obj props)]
  else
    Json.obj [("type", Json.str "object"), ("properties", Json.obj props),
              ("required", Json.arr (req.map Json.str))]

/-- The circular-reference schema emitted at wsdl_converter.py lines
247-249. -/
def circularSchema (tn : Option String) : Json :=
  Json.obj [("type", Json.str "object"),
            ("description", Json.str ("Circular reference to " ++ pyStrOptName tn))]

/-- The part of `xsd_to_json_schema` below the circular-reference guard
(wsdl_converter.py lines 252-317), with the visited set already extended:
wrapper-list unwrapping, complex-type object construction (properties
built in document order by dict assignment, `required` collected from
`min_occurs`), explicit `item_type` arrays, and the unknown-type
fallback. -/
def translateBody (rec : List Nat → Nat → Json) (visitedNew : List Nat)
    (node : XsdTypeNode) : Json :=
  match is_wrapper_list_type node with
  | some e =>
      Json.obj [("type", Json.str "array"),
                ("items", rec visitedNew e.typeRef)]
  | none =>
      match node.elements with
      | some elems =>
          mkObjectSchema
            (elems.foldl (fun acc e =>
              setKeyList acc e.name (elemPropSchema rec visitedNew e)) [])
            ((elems.filter (fun e => decide (0 < effectiveMinOccurs e))).map
              (fun e => e.name))
      | none =>
          match node.itemType with
          | some it =>
              Json.obj [("type", Json.str "array"),
                        ("items", rec visitedNew it)]
          | none => Json.obj [("type", Json.str "object")]

/-- One unfolding of `WSDLConverter.xsd_to_json_schema` past the
simple-type check (wsdl_converter.py lines 244-317), with `rec` standing
for the recursive call: the circular-reference guard on the visited set,
then `translateBody` at the extended visited set. -/
def translateComplex (rec : List Nat → Nat → Json) (visited : List Nat)
    (tid : Nat) (node : XsdTypeNode) (tn : Option String) : Json :=
  if visited.contains tid = true then circularSchema tn
  else translateBody rec (tid :: visited) node

/-- One unfolding of `WSDLConverter.xsd_to_json_schema`
(wsdl_converter.py lines 188-317): resolve the type name, try the
simple-type table, otherwise continue with `translateComplex`. -/
def translateStep (rec : List Nat → Nat → Json) (env : XsdEnv)
    (visited : List Nat) (tid : Nat) : Json :=
  match resolve_type_name (getNode env tid).name with
  | some s =>
      match lookupPrim (some s) with
      | some jty => primSchema s jty
      | none => translateComplex rec visited tid (getNode env tid) (some s)
  | none => translateComplex rec visited tid (getNode env tid) none

/-- Fuel-indexed translator.  The fuel only serves to realise the
recursion in Lean; `translateF_irrel` below shows the result is
independent of the fuel once it exceeds the number of unvisited
identities, which is the Python translator's termination argument. -/
def translateF : Nat → XsdEnv → List Nat → Nat → Json
  | 0, _, _, _ => Json.obj [("type", Json.str "object")]
  | fuel + 1, env, visited, tid =>
      translateStep (fun v t => translateF fuel env v t) env visited tid

/-- Number of environment identities not yet in the visited set: the
quantity that strictly decreases at every recursive call of the
translator. -/
def unvisited (env : XsdEnv) (visited : List Nat) : Nat :=
  (((show List (Nat × XsdTypeNode) from env).map Prod.fst).filter
    (fun i => ! visited.contains i)).length

/-- `WSDLConverter.xsd_to_json_schema`: the fuel-free translator. -/
def xsd_to_json_schema (env : XsdEnv) (visited : List Nat) (tid : Nat) : Json :=
  translateF (unvisited env visited + 1) env visited tid

/-! ### Termination of the translator

The Python translator terminates because every recursive call extends the
per-call visited set with the identity of a type that is present in the
(finite) type graph: the number of unvisited identities strictly
decreases.  The lemmas below establish exactly this and show that
`translateF` is independent of its fuel once the fuel exceeds that
number, so `xsd_to_json_schema` is the translator's unique value. -/

theorem length_filter_le_of_imp {l : List Nat} {p q : Nat → Bool}
    (himp : ∀ x, q x = true → p x = true) :
    (l.filter q).length ≤ (l.filter p).length := by
  induction l with
  | nil => simp
  | cons x xs ih =>
      by_cases hq : q x = true
      · have hp := himp x hq
        simp [List.filter, hq, hp, Nat.succ_le_succ ih]
      · have hq' : q x = false := by
          cases h : q x
          · rfl
          · exact absurd h hq
        by_cases hp : p x = true
        · simp only [List.filter, hq', hp]
          exact Nat.le_succ_of_le ih
        · have hp' : p x = false := by
            cases h : p x
            · rfl
            · exact absurd h hp
          simpa [List.filter, hq', hp'] using ih

theorem length_filter_lt_of_mem {l : List Nat} {p q : Nat → Bool}
    (himp : ∀ x, q x = true → p x = true) {i : Nat} (hi : i ∈ l)
    (hp : p i = true) (hq : q i = false) :
    (l.filter q).length < (l.filter p).length := by
  induction l with
  | nil => cases hi
  | cons x xs ih =>
      rcases List.mem_cons.mp hi with hx | hx
      · subst hx
        have hq' : q i = false := hq
        simp only [List.filter, hq', hp]
        exact Nat.lt_succ_of_le (length_filter_le_of_imp himp)
      · by_cases hqx : q x = true
        · have hpx := himp x hqx
          simp only [List.filter, hqx, hpx, List.length_cons]
          exact Nat.succ_lt_succ (ih hx)
        · have hq' : q x = false := by
            cases h : q x
            · rfl
            · exact absurd h hqx
          by_cases hpx : p x = true
          · simp only [List.filter, hq', hpx, List.length_cons]
            exact Nat.lt_succ_of_lt (ih hx)
          · have hp' : p x = false := by
              cases h : p x
              · rfl
              · exact absurd h hpx
            simpa [List.filter, hq', hp'] using ih hx

theorem mem_of_lookupEnv {env : XsdEnv} {tid : Nat} {node : XsdTypeNode}
    (h : lookupEnv env tid = some node) :
    tid ∈ ((show List (Nat × XsdTypeNode) from env).map Prod.fst) := by
  unfold lookupEnv at h
  cases hf : (show List (Nat × XsdTypeNode) from env).find? (fun p => p.1 == tid) with
  | none => rw [hf] at h; cases h
  | some p =>
      have hmem := List.mem_of_find?_eq_some hf
      have hpred := List.find?_some hf
      have : p.1 = tid := by simpa using hpred
      exact this ▸ List.mem_map_of_mem Prod.fst hmem

theorem unvisited_cons_lt {env : XsdEnv} {visited : List Nat} {tid : Nat}
    (hmem : tid ∈ ((show List (Nat × XsdTypeNode) from env).map Prod.fst))
    (hnv : visited.contains tid = false) :
    unvisited env (tid :: visited) < unvisited env visited := by
  unfold unvisited
  apply length_filter_lt_of_mem (i := tid) _ hmem
  · simpa using hnv
  · simp
  · intro x hx
    simp only [List.contains_cons, Bool.not_eq_true', Bool.or_eq_false_iff] at hx
    simpa using hx.2

theorem unvisited_le_length (env : XsdEnv) (visited : List Nat) :
    unvisited env visited ≤ (show List (Nat × XsdTypeNode) from env).length := by
  unfold unvisited
  calc (((show List (Nat × XsdTypeNode) from env).map Prod.fst).filter
          (fun i => ! visited.contains i)).length
      ≤ ((show List (Nat × XsdTypeNode) from env).map Prod.fst).length :=
        List.length_filter_le _ _
    _ = (show List (Nat × XsdTypeNode) from env).length := List.length_map _ _

theorem elemPropSchema_congr (rec1 rec2 : List Nat → Nat → Json)
    (v : List Nat) (e : XsdElement) (h : rec1 v e.typeRef = rec2 v e.typeRef) :
    elemPropSchema rec1 v e = elemPropSchema rec2 v e := by
  unfold elemPropSchema
  rw [h]

theorem translateBody_congr (visitedNew : List Nat) (node : XsdTypeNode)
    (rec1 rec2 : List Nat → Nat → Json)
    (hrec : ∀ t, rec1 visitedNew t = rec2 visitedNew t) :
    translateBody rec1 visitedNew node = translateBody rec2 visitedNew node := by
  unfold translateBody
  cases hw : is_wrapper_list_type node with
  | some e => simp [hrec]
  | none =>
      cases he : node.elements with
      | some elems =>
          have hprops :
              elems.foldl (fun acc e =>
                setKeyList acc e.name (elemPropSchema rec1 visitedNew e)) []
            = elems.foldl (fun acc e =>
                setKeyList acc e.name (elemPropSchema rec2 visitedNew e)) [] := by
            apply List.foldl_ext
            intro acc e _
            rw [elemPropSchema_congr rec1 rec2 _ e (hrec e.typeRef)]
          simp only [hprops]
      | none =>
          cases hit : node.itemType with
          | some it => simp [hrec]
          | none => rfl

theorem translateComplex_congr (visited : List Nat) (tid : Nat)
    (node : XsdTypeNode) (tn : Option String)
    (rec1 rec2 : List Nat → Nat → Json)
    (hrec : visited.contains tid = false →
      ∀ t, rec1 (tid :: visited) t = rec2 (tid :: visited) t) :
    translateComplex rec1 visited tid node tn
      = translateComplex rec2 visited tid node tn := by
  unfold translateComplex
  cases hv : visited.contains tid with
  | true => simp [hv]
  | false =>
      simp only [hv, Bool.false_eq_true, if_false]
      exact translateBody_congr _ _ _ _ (hrec hv)

theorem translateComplex_childless (visited : List Nat) (tid : Nat)
    (node : XsdTypeNode) (tn : Option String)
    (rec1 rec2 : List Nat → Nat → Json)
    (he : node.elements = none) (hi : node.itemType = none) :
    translateComplex rec1 visited tid node tn
      = translateComplex rec2 visited tid node tn := by
  unfold translateComplex translateBody
  have hw : is_wrapper_list_type node = none := by
    unfold is_wrapper_list_type
    rw [he]
  cases hv : visited.contains tid with
  | true => simp [hv]
  | false => simp [hv, hw, he, hi]

theorem translateStep_congr (env : XsdEnv) (visited : List Nat) (tid : Nat)
    (rec1 rec2 : List Nat → Nat → Json)
    (hrec : ∀ v t, unvisited env v < unvisited env visited →
      rec1 v t = rec2 v t) :
    translateStep rec1 env visited tid = translateStep rec2 env visited tid := by
  unfold translateStep
  cases hl : lookupEnv env tid with
  | none =>
      have hgn : getNode env tid = defaultNode := by simp [getNode, hl]
      rw [hgn]
      exact translateComplex_childless _ _ _ _ _ _ rfl rfl
  | some node =>
      have hgn : getNode env tid = node := by simp [getNode, hl]
      rw [hgn]
      have hmem := mem_of_lookupEnv hl
      have hstep : visited.contains tid = false →
          ∀ t, rec1 (tid :: visited) t = rec2 (tid :: visited) t := by
        intro hnv t
        exact hrec _ t (unvisited_cons_lt hmem hnv)
      cases htn : resolve_type_name node.name with
      | some s =>
          show (match lookupPrim (some s) with
                | some jty => primSchema s jty
                | none => translateComplex rec1 visited tid node (some s))
             = (match lookupPrim (some s) with
                | some jty => primSchema s jty
                | none => translateComplex rec2 visited tid node (some s))
          cases hp : lookupPrim (some s) with
          | some jty => rfl
          | none =>
              show translateComplex rec1 visited tid node (some s)
                 = translateComplex rec2 visited tid node (some s)
              exact translateComplex_congr _ _ _ _ _ _ hstep
      | none =>
          show translateComplex rec1 visited tid node none
             = translateComplex rec2 visited tid node none
          exact translateComplex_congr _ _ _ _ _ _ hstep

theorem translateF_irrel : ∀ (a b : Nat) (env : XsdEnv) (visited : List Nat)
    (tid : Nat), unvisited env visited < a → unvisited env visited < b →
    translateF a env visited tid = translateF b env visited tid := by
  intro a
  induction a with
  | zero => intro b env visited tid ha _; exact absurd ha (Nat.not_lt_zero _)
  | succ a ih =>
      intro b env visited tid ha hb
      cases b with
      | zero => exact absurd hb (Nat.not_lt_zero _)
      | succ b =>
          show translateStep (fun v t => translateF a env v t) env visited tid
            = translateStep (fun v t => translateF b env v t) env visited tid
          apply translateStep_congr
          intro v t hv
          have hva : unvisited env v < a :=
            Nat.lt_of_lt_of_le hv (Nat.lt_succ_iff.mp ha)
          have hvb : unvisited env v < b :=
            Nat.lt_of_lt_of_le hv (Nat.lt_succ_iff.mp hb)
          exact ih b env v t hva hvb

/-- The defining equation of `xsd_to_json_schema`: `xsd_to_json_schema` is a
fixed point of the one-step unfolding `translateStep`. -/
theorem xsd_to_json_schema_eq (env : XsdEnv) (visited : List Nat) (tid : Nat) :
    xsd_to_json_schema env visited tid
      = translateStep (fun v t => xsd_to_json_schema env v t) env visited tid := by
  show translateStep (fun v t => translateF (unvisited env visited) env v t)
        env visited tid
    = translateStep (fun v t => xsd_to_json_schema env v t) env visited tid
  apply translateStep_congr
  intro v t hv
  exact translateF_irrel _ _ env v t hv (Nat.lt_succ_self _)

/-- On a non-primitive type (one whose resolved name is not in the
simple-type table) the translator proceeds to the complex-type part of
the function body. -/
theorem xsd_to_json_schema_eq_complex (env : XsdEnv) (tid : Nat)
    (node : XsdTypeNode) (hn : lookupEnv env tid = some node)
    (hp : lookupPrim (resolve_type_name node.name) = none) (visited : List Nat) :
    xsd_to_json_schema env visited tid
      = translateComplex (fun v t => xsd_to_json_schema env v t) visited tid node
          (resolve_type_name node.name) := by
  rw [xsd_to_json_schema_eq]
  unfold translateStep
  have hgn : getNode env tid = node := by simp [getNode, hn]
  rw [hgn]
  cases htn : resolve_type_name node.name with
  | some s =>
      rw [htn] at hp
      show (match lookupPrim (some s) with
            | some jty => primSchema s jty
            | none => translateComplex (fun v t => xsd_to_json_schema env v t)
                visited tid node (some s))
         = translateComplex (fun v t => xsd_to_json_schema env v t) visited tid
             node (some s)
      rw [hp]
  | none => rfl

theorem getKey_mkObjectSchema_required (props : List (String × Json))
    (req : List String) :
    Json.getKey (mkObjectSchema props req) "required"
      = if req.isEmpty then none else some (Json.arr (req.map Json.str)) := by
  by_cases h : req.isEmpty = true
  · simp only [mkObjectSchema, h, if_true]
    rfl
  · have h' : req.isEmpty = false := by
      cases hb : req.isEmpty
      · rfl
      · exact absurd hb h
    simp only [mkObjectSchema, h', Bool.false_eq_true, if_false]
    rfl

/-- With pairwise-distinct element names, an element's name occurs in the
filtered name list exactly when the element itself passes the filter. -/
theorem mem_map_name_filter {elems : List XsdElement} (p : XsdElement → Bool)
    (hnd : (elems.map XsdElement.name).Nodup) {e : XsdElement}
    (he : e ∈ elems) :
    (e.name ∈ (elems.filter p).map XsdElement.name) ↔ p e = true := by
  induction elems with
  | nil => cases he
  | cons a l ih =>
      have hmapcons : (a :: l).map XsdElement.name
          = a.name :: l.map XsdElement.name := rfl
      rw [hmapcons] at hnd
      have hhead : a.name ∉ l.map XsdElement.name := (List.nodup_cons.mp hnd).1
      have htail : (l.map XsdElement.name).Nodup := (List.nodup_cons.mp hnd).2
      rcases List.mem_cons.mp he with rfl | hmem
      · cases hpa : p e with
        | true => simp [List.filter_cons, hpa]
        | false =>
            simp only [List.filter_cons, hpa, Bool.false_eq_true, if_false]
            constructor
            · intro hcontra
              exact absurd
                (List.map_subset XsdElement.name (List.filter_subset' l) hcontra)
                hhead
            · intro hf; cases hf
      · have hne : e.name ≠ a.name := by
          intro heq
          exact hhead (heq ▸ List.mem_map_of_mem XsdElement.name hmem)
        cases hpa : p a with
        | true =>
            simp only [List.filter_cons, hpa, if_true, List.map_cons,
              List.mem_cons]
            rw [ih htail hmem]
            constructor
            · intro hor
              rcases hor with heq | hp2
              · exact absurd heq hne
              · exact hp2
            · intro hp2
              exact Or.inr hp2
        | false =>
            simp only [List.filter_cons, hpa, Bool.false_eq_true, if_false]
            exact ih htail hmem

theorem xsd_to_json_schema_eq_body (env : XsdEnv) (tid : Nat)
    (node : XsdTypeNode) (hn : lookupEnv env tid = some node)
    (hp : lookupPrim (resolve_type_name node.name) = none)
    (visited : List Nat) (hv : visited.contains tid = false) :
    xsd_to_json_schema env visited tid
      = translateBody (fun v t => xsd_to_json_schema env v t) (tid :: visited) node := by
  rw [xsd_to_json_schema_eq_complex env tid node hn hp visited]
  unfold translateComplex
  simp only [hv, Bool.false_eq_true, if_false]

theorem mkObjectSchema_shape (props : List (String × Json)) (req : List String) :
    ∃ tail, mkObjectSchema props req
      = Json.obj (("type", Json.str "object")
          :: ("properties", Json.obj props) :: tail) := by
  unfold mkObjectSchema
  by_cases h : req.isEmpty = true
  · exact ⟨[], by simp [h]⟩
  · have h' : req.isEmpty = false := by
      cases hb : req.isEmpty
      · rfl
      · exact absurd hb h
    exact ⟨[("required", Json.arr (req.map Json.str))], by simp [h']⟩

/-- C1 (amended): for every XSD type in the graph whose resolved type
name is not one of the primitive names in `XSD_TO_JSON_TYPE`, if its
element list has exactly one element `e` whose `maxOccurs` is unbounded
or an integer greater than 1, then `xsd_to_json_schema` returns
`\x7btype: array, items: translate(e.type)\x7d` at the top level, while with a
sole element of `maxOccurs = 1` the wrapper rule does not fire and an
object schema (`type: object` with a `properties` key) is returned
instead. -/
theorem claim_c1_wrapper_unwrap (env : XsdEnv) (tid : Nat)
    (node : XsdTypeNode) (hn : lookupEnv env tid = some node)
    (hp : lookupPrim (resolve_type_name node.name) = none) :
    (∀ e, node.elements = some [e] → maxOccursIsArray e.maxOccurs = true →
      xsd_to_json_schema env [] tid
        = Json.obj [("type", Json.str "array"),
                    ("items", xsd_to_json_schema env [tid] e.typeRef)])
    ∧ (∀ e, node.elements = some [e] → e.maxOccurs = MaxOccurs.num 1 →
      ∃ ps tail, xsd_to_json_schema env [] tid
        = Json.obj (("type", Json.str "object")
            :: ("properties", Json.obj ps) :: tail)) := by
  constructor
  · intro e he hmax
    rw [xsd_to_json_schema_eq_body env tid node hn hp [] rfl]
    unfold translateBody
    have hw : is_wrapper_list_type node = some e := by
      unfold is_wrapper_list_type
      rw [he]
      simp [hmax]
    simp only [hw]
  · intro e he hone
    rw [xsd_to_json_schema_eq_body env tid node hn hp [] rfl]
    unfold translateBody
    have hw : is_wrapper_list_type node = none := by
      unfold is_wrapper_list_type
      rw [he]
      show (if maxOccursIsArray e.maxOccurs = true then some e else none) = none
      rw [hone]
      rfl
    simp only [hw, he]
    obtain ⟨tail, htail⟩ := mkObjectSchema_shape
      ([e].foldl (fun acc e2 =>
        setKeyList acc e2.name (elemPropSchema
          (fun v t => xsd_to_json_schema env v t) (tid :: []) e2)) [])
      (([e].filter (fun e2 => decide (0 < effectiveMinOccurs e2))).map
        (fun e2 => e2.name))
    exact ⟨_, tail, htail⟩

def c1CexElem : XsdElement :=
  ⟨"item", 1, MaxOccurs.unbounded, MinOccurs.num 1, false, none⟩

/-- A complex type whose local name shadows the XSD primitive name
`string`: it has exactly one element with unbounded `maxOccurs`, yet the
translator's simple-type check fires first. -/
def c1CexNode : XsdTypeNode := ⟨some "string", some [c1CexElem], none⟩

def c1CexEnv : XsdEnv := [(0, c1CexNode), (1, ⟨some "int", none, none⟩)]

/-- C1 (counterexample): the claim quantifies over every complex type
with a sole unbounded element, but a complex type whose resolved name is
a primitive name (here `string`) is translated by the simple-type table
before the wrapper check, producing `\x7btype: string\x7d` instead of the
claimed array schema. -/
theorem claim_c1_counterexample :
    c1CexNode.elements = some [c1CexElem]
    ∧ c1CexElem.maxOccurs = MaxOccurs.unbounded
    ∧ xsd_to_json_schema c1CexEnv [] 0 = Json.obj [("type", Json.str "string")]
    ∧ xsd_to_json_schema c1CexEnv [] 0
        ≠ Json.obj [("type", Json.str "array"),
                    ("items", xsd_to_json_schema c1CexEnv [0] 1)] := by
  refine ⟨rfl, rfl, rfl, ?_⟩
  intro h
  rw [show xsd_to_json_schema c1CexEnv [] 0
      = Json.obj [("type", Json.str "string")] from rfl] at h
  rw [show xsd_to_json_schema c1CexEnv [0] 1
      = Json.obj [("type", Json.str "integer")] from rfl] at h
  simp at h

def c1WElem : XsdElement :=
  ⟨"recentClaim", 1, MaxOccurs.unbounded, MinOccurs.num 1, false, none⟩

def c1WNodeA : XsdTypeNode := ⟨some "RecentClaimList", some [c1WElem], none⟩

def c1WElemB : XsdElement :=
  ⟨"claimId", 1, MaxOccurs.num 1, MinOccurs.num 1, false, none⟩

def c1WNodeB : XsdTypeNode := ⟨some "RecentClaim", some [c1WElemB], none⟩

def c1WEnv : XsdEnv :=
  [(0, c1WNodeA), (1, ⟨some "string", none, none⟩), (2, c1WNodeB)]

theorem claim_c1_witness :
    xsd_to_json_schema c1WEnv [] 0
      = Json.obj [("type", Json.str "array"),
                  ("items", xsd_to_json_schema c1WEnv [0] 1)]
    ∧ ∃ ps tail, xsd_to_json_schema c1WEnv [] 2
        = Json.obj (("type", Json.str "object")
            :: ("properties", Json.obj ps) :: tail) := by
  constructor
  · exact (claim_c1_wrapper_unwrap c1WEnv 0 c1WNodeA rfl rfl).1 c1WElem rfl rfl
  · exact (claim_c1_wrapper_unwrap c1WEnv 2 c1WNodeB rfl rfl).2 c1WElemB rfl rfl

/-- C2: for every complex type translated to an object schema (one that
is not a primitive by name and not a wrapper list), an element's name
appears in the emitted `required` list exactly when its effective
`minOccurs` is at least 1, where an absent `minOccurs` attribute
defaults to 1; and when no element is required the `required` key is
omitted from the schema rather than emitted as an empty list. -/
theorem claim_c2_required (env : XsdEnv) (tid : Nat) (node : XsdTypeNode)
    (elems : List XsdElement) (hn : lookupEnv env tid = some node)
    (hp : lookupPrim (resolve_type_name node.name) = none)
    (he : node.elements = some elems)
    (hw : is_wrapper_list_type node = none)
    (hnd : (elems.map XsdElement.name).Nodup) :
    (Json.getKey (xsd_to_json_schema env [] tid) "required"
      = (if ((elems.filter (fun e => decide (0 < effectiveMinOccurs e))).map
            XsdElement.name).isEmpty then none
         else some (Json.arr (((elems.filter
            (fun e => decide (0 < effectiveMinOccurs e))).map
              XsdElement.name).map Json.str))))
    ∧ (∀ e ∈ elems,
        e.name ∈ (elems.filter (fun e2 => decide (0 < effectiveMinOccurs e2))).map
            XsdElement.name
          ↔ 1 ≤ effectiveMinOccurs e)
    ∧ (∀ e ∈ elems, e.minOccurs = MinOccurs.absent → effectiveMinOccurs e = 1) := by
  refine ⟨?_, ?_, ?_⟩
  · rw [xsd_to_json_schema_eq_body env tid node hn hp [] rfl]
    unfold translateBody
    simp only [hw, he]
    exact getKey_mkObjectSchema_required _ _
  · intro e hmem
    have h := mem_map_name_filter
      (fun e2 => decide (0 < effectiveMinOccurs e2)) hnd hmem
    rw [h]
    constructor
    · intro hd
      exact of_decide_eq_true hd
    · intro hle
      exact decide_eq_true hle
  · intro e _ habs
    unfold effectiveMinOccurs
    rw [habs]

def c2WElem1 : XsdElement :=
  ⟨"customerId", 1, MaxOccurs.num 1, MinOccurs.num 1, false, none⟩

def c2WElem2 : XsdElement :=
  ⟨"estimatedAmount", 2, MaxOccurs.num 1, MinOccurs.num 0, false, none⟩

def c2WElems : List XsdElement := [c2WElem1, c2WElem2]

def c2WNode : XsdTypeNode := ⟨some "ClaimRequest", some c2WElems, none⟩

def c2WEnv : XsdEnv :=
  [(0, c2WNode), (1, ⟨some "string", none, none⟩),
   (2, ⟨some "double", none, none⟩)]

theorem claim_c2_witness :
    Json.getKey (xsd_to_json_schema c2WEnv [] 0) "required"
      = some (Json.arr [Json.str "customerId"])
    ∧ ("estimatedAmount"
        ∈ (c2WElems.filter (fun e2 => decide (0 < effectiveMinOccurs e2))).map
            XsdElement.name
        ↔ 1 ≤ effectiveMinOccurs c2WElem2) := by
  have h := claim_c2_required c2WEnv 0 c2WNode c2WElems rfl rfl rfl rfl (by decide)
  refine ⟨h.1.trans rfl, h.2.1 c2WElem2 (by decide)⟩

/-- C7: the schema translator terminates on every finite type graph,
cyclic ones included.  First conjunct: re-entry on a type identity
already present in the per-call visited set emits the circular-reference
object schema and does not recurse (the result is fully determined by
the type name alone).  Second conjunct: the fuel-indexed recursion is
stable as soon as the fuel exceeds the (finite) number of identities in
the graph, so `xsd_to_json_schema` is its well-defined value on every
finite graph. -/
theorem claim_c7_termination :
    (∀ (env : XsdEnv) (visited : List Nat) (tid : Nat) (node : XsdTypeNode),
      lookupEnv env tid = some node →
      lookupPrim (resolve_type_name node.name) = none →
      visited.contains tid = true →
      xsd_to_json_schema env visited tid
        = Json.obj [("type", Json.str "object"),
                    ("description", Json.str ("Circular reference to "
                      ++ pyStrOptName (resolve_type_name node.name)))])
    ∧ (∀ (env : XsdEnv) (visited : List Nat) (tid fuel : Nat),
        env.length < fuel →
        translateF fuel env visited tid = xsd_to_json_schema env visited tid) := by
  constructor
  · intro env visited tid node hn hp hv
    rw [xsd_to_json_schema_eq_complex env tid node hn hp visited]
    unfold translateComplex
    simp only [hv, if_true]
    rfl
  · intro env visited tid fuel hf
    unfold xsd_to_json_schema
    apply translateF_irrel
    · exact Nat.lt_of_le_of_lt (unvisited_le_length env visited) hf
    · exact Nat.lt_succ_self _

/-- A self-referential complex type: the element `child` of `Node`
refers back to `Node` itself. -/
def c7Node : XsdTypeNode :=
  ⟨some "Node", some [⟨"child", 0, MaxOccurs.num 1, MinOccurs.num 0, false, none⟩], none⟩

def c7Env : XsdEnv := [(0, c7Node)]

theorem claim_c7_witness :
    xsd_to_json_schema c7Env [0] 0
      = Json.obj [("type", Json.str "object"),
                  ("description", Json.str "Circular reference to Node")]
    ∧ translateF 5 c7Env [] 0 = xsd_to_json_schema c7Env [] 0 := by
  constructor
  · exact (claim_c7_termination.1 c7Env [0] 0 c7Node rfl rfl rfl).trans rfl
  · exact claim_c7_termination.2 c7Env [] 0 5 (by decide)

/-! ### Runtime translator: parameter normalization
(`soap_translator.py`, `SOAPTranslator._normalize_parameters`,
lines 126-165) -/

/-- A JSON scalar in the sense of the proxy's docs (string, number or
boolean). -/
def jsonIsScalar : Json → Bool
  | Json.str _ => true
  | Json.num _ => true
  | Json.bool _ => true
  | _ => false

/-- `input_schema.get('properties', \x7b\x7d)` (soap_translator.py line 148):
the `properties` member of the stored input schema; emitted schemas
always store it as an object, and a missing key yields the empty dict. -/
def schemaProperties (inputSchema : Json) : List (String × Json) :=
  match Json.getKey inputSchema "properties" with
  | some (Json.obj ps) => ps
  | _ => []

/-- The `ValueError` raised at soap_translator.py lines 158-162 when a
simple value is supplied to a multi-parameter operation; it carries the
`param_names` interpolated into the message. -/
inductive ParamError where
  | multipleParams (names : List String)
deriving DecidableEq

/-- The non-dict branch of `_normalize_parameters` (soap_translator.py
lines 146-165): wrap a single-parameter operation's value, reject
multiple parameters, or produce the empty argument dict. -/
def normalizeScalarResult (v : Json) (inputSchema : Json) :
    Except ParamError Json :=
  match schemaProperties inputSchema with
  | [(p, _)] => Except.ok (Json.obj [(p, v)])
  | [] => Except.ok (Json.obj [])
  | props => Except.error (ParamError.multipleParams (props.map Prod.fst))

/-- `SOAPTranslator._normalize_parameters` (soap_translator.py lines
126-165): a dict passes through unchanged; any other value takes the
smart-wrapping branch. -/
def normalize_parameters (parameters : Json) (inputSchema : Json) :
    Except ParamError Json :=
  match parameters with
  | Json.obj kvs => Except.ok (Json.obj kvs)
  | v => normalizeScalarResult v inputSchema

theorem normalize_parameters_scalar (v : Json) (inputSchema : Json)
    (hs : jsonIsScalar v = true) :
    normalize_parameters v inputSchema = normalizeScalarResult v inputSchema := by
  cases v with
  | str s => rfl
  | num n => rfl
  | bool b => rfl
  | null => exact absurd hs (by decide)
  | arr xs => exact absurd hs (by simp [jsonIsScalar])
  | obj kvs => exact absurd hs (by simp [jsonIsScalar])

/-- C3: parameter normalization passes JSON objects through unchanged;
a scalar against a one-property input schema is wrapped as
`\x7bproperty: value\x7d`; a scalar against a schema with two or more
properties raises the multiple-parameters `ValueError`
(`ParameterShapeError`); a scalar against a zero-property schema yields
the empty argument object. -/
theorem claim_c3_normalize (inputSchema : Json) (v : Json) :
    (∀ kvs, v = Json.obj kvs →
      normalize_parameters v inputSchema = Except.ok v)
    ∧ (jsonIsScalar v = true →
        (∀ p s, schemaProperties inputSchema = [(p, s)] →
          normalize_parameters v inputSchema = Except.ok (Json.obj [(p, v)]))
        ∧ (2 ≤ (schemaProperties inputSchema).length →
          normalize_parameters v inputSchema
            = Except.error (ParamError.multipleParams
                ((schemaProperties inputSchema).map Prod.fst)))
        ∧ (schemaProperties inputSchema = [] →
          normalize_parameters v inputSchema = Except.ok (Json.obj []))) := by
  constructor
  · intro kvs hv
    subst hv
    rfl
  · intro hs
    refine ⟨?_, ?_, ?_⟩
    · intro p s hps
      rw [normalize_parameters_scalar v inputSchema hs]
      unfold normalizeScalarResult
      rw [hps]
    · intro hlen
      rw [normalize_parameters_scalar v inputSchema hs]
      unfold normalizeScalarResult
      cases hprops : schemaProperties inputSchema with
      | nil => rw [hprops] at hlen; simp at hlen
      | cons a t =>
          cases t with
          | nil =>
              rw [hprops] at hlen
              simp at hlen
          | cons b r => rfl
    · intro h0
      rw [normalize_parameters_scalar v inputSchema hs]
      unfold normalizeScalarResult
      rw [h0]

def c3Schema1 : Json :=
  Json.obj [("type", Json.str "object"),
            ("properties", Json.obj [("customerId", Json.obj [("type", Json.str "string")])])]

def c3Schema2 : Json :=
  Json.obj [("type", Json.str "object"),
            ("properties", Json.obj
              [("customerId", Json.obj [("type", Json.str "string")]),
               ("policyId", Json.obj [("type", Json.str "string")])])]

def c3Schema0 : Json :=
  Json.obj [("type", Json.str "object"), ("properties", Json.obj [])]

theorem claim_c3_witness :
    normalize_parameters (Json.obj [("a", Json.num 1)]) c3Schema1
      = Except.ok (Json.obj [("a", Json.num 1)])
    ∧ normalize_parameters (Json.str "CUST-1") c3Schema1
      = Except.ok (Json.obj [("customerId", Json.str "CUST-1")])
    ∧ normalize_parameters (Json.str "CUST-1") c3Schema2
      = Except.error (ParamError.multipleParams ["customerId", "policyId"])
    ∧ normalize_parameters (Json.str "CUST-1") c3Schema0
      = Except.ok (Json.obj []) := by
  refine ⟨?_, ?_, ?_, ?_⟩
  · exact (claim_c3_normalize c3Schema1 (Json.obj [("a", Json.num 1)])).1 _ rfl
  · exact ((claim_c3_normalize c3Schema1 (Json.str "CUST-1")).2 rfl).1
      "customerId" (Json.obj [("type", Json.str "string")]) rfl
  · exact (((claim_c3_normalize c3Schema2 (Json.str "CUST-1")).2 rfl).2.1
      (by decide)).trans rfl
  · exact ((claim_c3_normalize c3Schema0 (Json.str "CUST-1")).2 rfl).2.2 rfl

/-! ### Runtime endpoint body handling
(`app.py`, `execute_soap_operation`, lines 450-492) -/

/-- Python truthiness of a parsed JSON request body. -/
def jsonTruthy : Json → Bool
  | Json.null => false
  | Json.bool b => b
  | Json.num n => !(n == 0)
  | Json.str s => !(s == "")
  | Json.arr xs => !xs.isEmpty
  | Json.obj kvs => !kvs.isEmpty

/-- `parameters = request.json or \x7b\x7d` (app.py line 462): a falsy JSON
body is replaced by the empty object before normalization. -/
def requestParameters (body : Json) : Json :=
  if jsonTruthy body then body else Json.obj []

/-- The argument dict with which `POST /soap/\x7bservice\x7d/\x7boperation\x7d`
dispatches the SOAP call: body defaulting (app.py line 462) followed by
`_normalize_parameters` (soap_translator.py line 67). -/
def execute_soap_operation_args (body : Json) (inputSchema : Json) :
    Except ParamError Json :=
  normalize_parameters (requestParameters body) inputSchema

/-- C10: at the runtime endpoint every falsy JSON request body (null,
false, 0, the empty string, and also empty arrays and objects) is
replaced by `\x7b\x7d` before parameter normalization, so the dispatched
argument dict is empty and scalar auto-wrapping never applies to falsy
scalars: for a single-property operation the SOAP call is made with no
arguments, not with the wrapped falsy value. -/
theorem claim_c10_falsy_body (body : Json) (inputSchema : Json)
    (hf : jsonTruthy body = false) :
    execute_soap_operation_args body inputSchema = Except.ok (Json.obj [])
    ∧ (∀ p s, schemaProperties inputSchema = [(p, s)] →
        ¬ execute_soap_operation_args body inputSchema
            = Except.ok (Json.obj [(p, body)])) := by
  have hreq : requestParameters body = Json.obj [] := by
    unfold requestParameters
    simp [hf]
  have hmain : execute_soap_operation_args body inputSchema
      = Except.ok (Json.obj []) := by
    unfold execute_soap_operation_args
    rw [hreq]
    rfl
  refine ⟨hmain, ?_⟩
  intro p s _ h
  rw [hmain] at h
  simp at h

theorem claim_c10_witness :
    execute_soap_operation_args (Json.bool false) c3Schema1
      = Except.ok (Json.obj [])
    ∧ ¬ execute_soap_operation_args (Json.bool false) c3Schema1
        = Except.ok (Json.obj [("customerId", Json.bool false)]) := by
  have h := claim_c10_falsy_body (Json.bool false) c3Schema1 rfl
  exact ⟨h.1, h.2 "customerId" (Json.obj [("type", Json.str "string")]) rfl⟩

/-! ### Response deserialization
(`soap_translator.py`, `SOAPTranslator._serialize_zeep_result`,
lines 194-231) -/

/-- The value domain of a zeep SOAP call result as the serializer
inspects it with `isinstance` checks: `None`, scalar primitives, lists,
zeep `CompoundValue`s (objects carrying `__values__`, an ordered dict),
plain dicts, and any other opaque object of which only the `str(...)`
text survives (e.g. an ISO-8601 rendering of a timestamp). Python
`float` results are outside this model. -/
inductive ZeepValue where
  | null : ZeepValue
  | str (s : String) : ZeepValue
  | int (n : Int) : ZeepValue
  | bool (b : Bool) : ZeepValue
  | list (xs : List ZeepValue) : ZeepValue
  | compound (fields : List (String × ZeepValue)) : ZeepValue
  | dict (fields : List (String × ZeepValue)) : ZeepValue
  | other (s : String) : ZeepValue

mutual

/-- `SOAPTranslator._serialize_zeep_result` (soap_translator.py lines
194-231), by cases in the order of the source's `isinstance` checks. -/
def serialize_zeep_result : ZeepValue → Json
  | ZeepValue.null => Json.null
  | ZeepValue.str s => Json.str s
  | ZeepValue.int n => Json.num n
  | ZeepValue.bool b => Json.bool b
  | ZeepValue.list xs => Json.arr (serializeZeepList xs)
  | ZeepValue.compound fs => Json.obj (serializeZeepFields fs)
  | ZeepValue.dict fs => Json.obj (serializeZeepFields fs)
  | ZeepValue.other s => Json.str s

/-- The list comprehension at soap_translator.py line 214. -/
def serializeZeepList : List ZeepValue → List Json
  | [] => []
  | x :: xs => serialize_zeep_result x :: serializeZeepList xs

/-- The dict comprehensions at soap_translator.py lines 218-228
(`__values__.items()` and `dict.items()` iterate in insertion order). -/
def serializeZeepFields : List (String × ZeepValue) → List (String × Json)
  | [] => []
  | (k, v) :: fs => (k, serialize_zeep_result v) :: serializeZeepFields fs

end

theorem serializeZeepList_eq_map (xs : List ZeepValue) :
    serializeZeepList xs = xs.map serialize_zeep_result := by
  induction xs with
  | nil => rfl
  | cons x t ih => simp [serializeZeepList, ih]

theorem serializeZeepFields_eq_map (fs : List (String × ZeepValue)) :
    serializeZeepFields fs
      = fs.map (fun kv => (kv.1, serialize_zeep_result kv.2)) := by
  induction fs with
  | nil => rfl
  | cons kv t ih =>
      cases kv with
      | mk k v => simp [serializeZeepFields, ih]

/-- C8: SOAP response deserialization maps null to null, scalars to
themselves with their native JSON type, ordered sequences to arrays of
the serialized members in order (elementwise `map`, which preserves both
length and document order), zeep compound values and dicts to JSON
objects whose properties keep the response insertion order and key set,
and every unknown opaque value to a string via its canonical `str`
representation. -/
theorem claim_c8_serialize :
    serialize_zeep_result ZeepValue.null = Json.null
    ∧ (∀ s, serialize_zeep_result (ZeepValue.str s) = Json.str s)
    ∧ (∀ n, serialize_zeep_result (ZeepValue.int n) = Json.num n)
    ∧ (∀ b, serialize_zeep_result (ZeepValue.bool b) = Json.bool b)
    ∧ (∀ xs, serialize_zeep_result (ZeepValue.list xs)
        = Json.arr (xs.map serialize_zeep_result))
    ∧ (∀ fs, serialize_zeep_result (ZeepValue.compound fs)
        = Json.obj (fs.map (fun kv => (kv.1, serialize_zeep_result kv.2))))
    ∧ (∀ fs, serialize_zeep_result (ZeepValue.dict fs)
        = Json.obj (fs.map (fun kv => (kv.1, serialize_zeep_result kv.2))))
    ∧ (∀ fs : List (String × ZeepValue),
        ((fs.map (fun kv => (kv.1, serialize_zeep_result kv.2))).map Prod.fst)
          = fs.map Prod.fst)
    ∧ (∀ s, serialize_zeep_result (ZeepValue.other s) = Json.str s) := by
  refine ⟨rfl, fun s => rfl, fun n => rfl, fun b => rfl, ?_, ?_, ?_, ?_,
    fun s => rfl⟩
  · intro xs
    simp [serialize_zeep_result, serializeZeepList_eq_map]
  · intro fs
    simp [serialize_zeep_result, serializeZeepFields_eq_map]
  · intro fs
    simp [serialize_zeep_result, serializeZeepFields_eq_map]
  · intro fs
    induction fs with
    | nil => rfl
    | cons kv t ih => simp [ih]

/-! ### Service-name selection
(`wsdl_converter.py`, `WSDLConverter.convert`, lines 54-58) -/

/-- Per-service information of a parsed WSDL document; only the presence
of the entry matters for service selection. -/
structure WsdlService where
  doc : Option String

/-- `list(wsdl_doc.services.keys())[0]` with the falsy-override guard
(wsdl_converter.py lines 55-56): zeep's `wsdl_doc.services` is an
insertion-ordered dict populated in WSDL document order, modelled here
as an association list in document order.  A `None` or empty override
falls back to the first declared service. -/
def selectServiceName (services : List (String × WsdlService))
    (overrideName : Option String) : Option String :=
  match overrideName with
  | some n => if n == "" then (services.head?).map Prod.fst else some n
  | none => (services.head?).map Prod.fst

/-- C9: when the WSDL declares multiple services and no service-name
override is supplied, `convert` selects the first service in document
order of the WSDL, a stable deterministic tie-break independent of the
remaining services. -/
theorem claim_c9_first_service (services : List (String × WsdlService))
    (n : String) (s : WsdlService) (rest : List (String × WsdlService))
    (h : services = (n, s) :: rest) :
    selectServiceName services none = some n := by
  subst h
  rfl

theorem claim_c9_witness :
    selectServiceName
      [("ClaimsService", ⟨none⟩), ("BillingService", ⟨none⟩)] none
      = some "ClaimsService" :=
  claim_c9_first_service _ "ClaimsService" ⟨none⟩ [("BillingService", ⟨none⟩)] rfl

/-! ### Gateway registration
(`gateway_client.py` lines 36-242 and `app.py` lines 294-447) -/

/-- The gateway-related columns of a `services` row (database.py lines
44-48) together with the per-operation `gateway_tool_id` column
(database.py line 85), in operation order. -/
structure ServiceState where
  gatewayRegistered : Bool
  gatewayServerUuid : Option String
  gatewayMcpEndpoint : Option String
  gatewayRegisteredAt : Option Nat
  operationToolIds : List (Option String)
deriving DecidableEq

/-- A SQLAlchemy session over one service row: `mem` is the in-memory
ORM state (attribute assignments before commit) and `committed` is what
the database durably holds.  `db_session.commit()` persists `mem`;
rolling back or closing an uncommitted session discards it. -/
structure DbSession where
  mem : ServiceState
  committed : ServiceState
deriving DecidableEq

def dbCommit (s : DbSession) : DbSession := ⟨s.mem, s.mem⟩

def dbRollback (s : DbSession) : DbSession := ⟨s.committed, s.committed⟩

/-- The exceptions raised inside `gateway_client.py`: the two explicit
`ValueError`s, HTTP `RequestException`s from the three gateway calls,
and the missing-id `ValueError`s. -/
inductive GwError where
  | alreadyRegistered
  | notRegistered
  | toolRequestFailed
  | missingToolId
  | serverRequestFailed
  | missingServerUuid
  | deleteRequestFailed
deriving DecidableEq

/-- HTTP requests issued to the gateway. -/
inductive HttpCall where
  | postTool (name : String)
  | postServer
  | deleteServer (uuid : String)
deriving DecidableEq

/-- The per-operation loop of `register_service` (gateway_client.py
lines 63-77): each successful `POST /tools` yields a tool id that is
collected and written to the operation's `gateway_tool_id` in the
session's in-memory state; an HTTP failure or a falsy returned id raises
out of the function with nothing committed.  `responses` models the
gateway's answer per operation in operation order: `none` is a request
exception and `""` a response without `id`/`tool_id`. -/
def registerToolsLoop (responses : List (Option String)) (idx : Nat)
    (acc : List String) (sess : DbSession) :
    Except (GwError × DbSession) (List String × DbSession) :=
  match responses with
  | [] => Except.ok (acc, sess)
  | none :: _ => Except.error (GwError.toolRequestFailed, sess)
  | some tid :: rest =>
      if tid == "" then Except.error (GwError.missingToolId, sess)
      else
        registerToolsLoop rest (idx + 1) (acc ++ [tid])
          { sess with mem := { sess.mem with
              operationToolIds := sess.mem.operationToolIds.set idx (some tid) } }

/-- `mcp_endpoint = gateway_url + "/servers/" + uuid + "/mcp"`
(gateway_client.py line 190). -/
def mkMcpEndpoint (gatewayUrl : String) (uuid : String) : String :=
  gatewayUrl ++ "/servers/" ++ uuid ++ "/mcp"

/-- `GatewayClient.register_service` (gateway_client.py lines 36-101):
reject an already-registered service, register every operation as a
tool, create the virtual server (`serverResponse` models its answer,
as for tools), then set the four gateway columns and commit — the only
`db_session.commit()` in the function, reached after every HTTP call
succeeded. -/
def register_service (gatewayUrl : String) (now : Nat)
    (toolResponses : List (Option String)) (serverResponse : Option String)
    (sess : DbSession) : Except (GwError × DbSession) DbSession :=
  if sess.mem.gatewayRegistered then
    Except.error (GwError.alreadyRegistered, sess)
  else
    match registerToolsLoop toolResponses 0 [] sess with
    | Except.error e => Except.error e
    | Except.ok p =>
        match serverResponse with
        | none => Except.error (GwError.serverRequestFailed, p.2)
        | some uuid =>
            if uuid == "" then
              Except.error (GwError.missingServerUuid, p.2)
            else
              Except.ok (dbCommit { p.2 with mem := { p.2.mem with
                gatewayRegistered := true,
                gatewayServerUuid := some uuid,
                gatewayMcpEndpoint := some (mkMcpEndpoint gatewayUrl uuid),
                gatewayRegisteredAt := some now } })

/-- The clearing of the binding columns and of every operation's
`gateway_tool_id` (gateway_client.py lines 225-233). -/
def clearBinding (s : ServiceState) : ServiceState :=
  { s with gatewayRegistered := false, gatewayServerUuid := none,
           gatewayMcpEndpoint := none, gatewayRegisteredAt := none,
           operationToolIds := s.operationToolIds.map (fun _ => none) }

/-- `GatewayClient.unregister_service` (gateway_client.py lines
199-242): raise for a not-registered service before any HTTP traffic,
issue `DELETE /servers/{uuid}` when a server uuid is recorded (`deleteOk`
models the gateway's answer; a failure raises before any state change),
then clear the binding and commit.  The first component is the list of
HTTP calls issued. -/
def unregister_service (deleteOk : Bool) (sess : DbSession) :
    List HttpCall × Except (GwError × DbSession) DbSession :=
  if !sess.mem.gatewayRegistered then
    ([], Except.error (GwError.notRegistered, sess))
  else
    match sess.mem.gatewayServerUuid with
    | some uuid =>
        if deleteOk then
          ([HttpCall.deleteServer uuid],
           Except.ok (dbCommit { sess with mem := clearBinding sess.mem }))
        else
          ([HttpCall.deleteServer uuid],
           Except.error (GwError.deleteRequestFailed, sess))
    | none =>
        ([], Except.ok (dbCommit { sess with mem := clearBinding sess.mem }))

/-- `DELETE /api/services/{id}/unregister-gateway` (app.py lines
413-447) for an existing service: 409 when the service is not
registered; otherwise delegate to `unregister_service`, an exception
rolling the session back into a 500.  Result: HTTP status, resulting
session, gateway calls issued. -/
def unregister_from_gateway (deleteOk : Bool) (sess : DbSession) :
    Nat × DbSession × List HttpCall :=
  if !sess.mem.gatewayRegistered then (409, sess, [])
  else
    match unregister_service deleteOk sess with
    | (calls, Except.ok s2) => (200, s2, calls)
    | (calls, Except.error (_, s1)) => (500, dbRollback s1, calls)

theorem registerToolsLoop_committed : ∀ (responses : List (Option String))
    (idx : Nat) (acc : List String) (sess : DbSession),
    (∀ e s1, registerToolsLoop responses idx acc sess = Except.error (e, s1) →
      s1.committed = sess.committed)
    ∧ (∀ ids s1, registerToolsLoop responses idx acc sess = Except.ok (ids, s1) →
      s1.committed = sess.committed) := by
  intro responses
  induction responses with
  | nil =>
      intro idx acc sess
      constructor
      · intro e s1 h
        simp [registerToolsLoop] at h
      · intro ids s1 h
        simp [registerToolsLoop] at h
        rw [h.2]
  | cons r rest ih =>
      intro idx acc sess
      cases r with
      | none =>
          constructor
          · intro e s1 h
            simp [registerToolsLoop] at h
            rw [h.2]
          · intro ids s1 h
            simp [registerToolsLoop] at h
      | some tid =>
          by_cases ht : tid == ""
          · constructor
            · intro e s1 h
              simp [registerToolsLoop, ht] at h
              rw [h.2]
            · intro ids s1 h
              simp [registerToolsLoop, ht] at h
          · constructor
            · intro e s1 h
              simp only [registerToolsLoop, ht, Bool.false_eq_true, if_false] at h
              exact (ih (idx + 1) (acc ++ [tid])
                { sess with mem := { sess.mem with
                    operationToolIds :=
                      sess.mem.operationToolIds.set idx (some tid) } }).1 e s1 h
            · intro ids s1 h
              simp only [registerToolsLoop, ht, Bool.false_eq_true, if_false] at h
              exact (ih (idx + 1) (acc ++ [tid])
                { sess with mem := { sess.mem with
                    operationToolIds :=
                      sess.mem.operationToolIds.set idx (some tid) } }).2 ids s1 h

/-- C4: after a successful `register_service` the committed record has
`gateway_registered = true` with both `gateway_server_uuid` and
`gateway_mcp_endpoint` non-null; if registration fails at any step (tool
creation or server creation) the committed state is exactly the state
before the call — the single commit sits after every gateway call, so no
partial binding is ever persisted; and after a successful
`unregister_service` all binding columns are cleared in the committed
record. -/
theorem claim_c4_registration_state (gatewayUrl : String) (now : Nat)
    (toolResponses : List (Option String)) (serverResponse : Option String)
    (sess : DbSession) :
    (∀ s2, register_service gatewayUrl now toolResponses serverResponse sess
        = Except.ok s2 →
      s2.committed.gatewayRegistered = true
      ∧ s2.committed.gatewayServerUuid.isSome = true
      ∧ s2.committed.gatewayMcpEndpoint.isSome = true)
    ∧ (∀ e s1, register_service gatewayUrl now toolResponses serverResponse sess
        = Except.error (e, s1) →
      s1.committed = sess.committed)
    ∧ (∀ deleteOk calls s2, unregister_service deleteOk sess
        = (calls, Except.ok s2) →
      s2.committed.gatewayRegistered = false
      ∧ s2.committed.gatewayServerUuid = none
      ∧ s2.committed.gatewayMcpEndpoint = none
      ∧ s2.committed.gatewayRegisteredAt = none) := by
  refine ⟨?_, ?_, ?_⟩
  · intro s2 h
    unfold register_service at h
    split at h
    · simp at h
    · split at h
      · simp at h
      · split at h
        · simp at h
        · split at h
          · simp at h
          · simp only [Except.ok.injEq] at h
            subst h
            exact ⟨rfl, rfl, rfl⟩
  · intro e s1 h
    unfold register_service at h
    split at h
    · simp only [Except.error.injEq, Prod.mk.injEq] at h
      rw [h.2]
    · split at h
      · rename_i eLoop heqLoop
        simp only [Except.error.injEq] at h
        rw [h] at heqLoop
        exact (registerToolsLoop_committed toolResponses 0 [] sess).1 e s1 heqLoop
      · rename_i p heqLoop
        have hsess1 : p.2.committed = sess.committed :=
          (registerToolsLoop_committed toolResponses 0 [] sess).2 p.1 p.2 heqLoop
        split at h
        · simp only [Except.error.injEq, Prod.mk.injEq] at h
          rw [← h.2]
          exact hsess1
        · split at h
          · simp only [Except.error.injEq, Prod.mk.injEq] at h
            rw [← h.2]
            exact hsess1
          · simp at h
  · intro deleteOk calls s2 h
    unfold unregister_service at h
    split at h
    · simp at h
    · split at h
      · rename_i uuid heqU
        split at h
        · simp only [Prod.mk.injEq, Except.ok.injEq] at h
          rw [← h.2]
          exact ⟨rfl, rfl, rfl, rfl⟩
        · simp at h
      · simp only [Prod.mk.injEq, Except.ok.injEq] at h
        rw [← h.2]
        exact ⟨rfl, rfl, rfl, rfl⟩

def c4Start : ServiceState := ⟨false, none, none, none, [none, none]⟩

def c4Sess : DbSession := ⟨c4Start, c4Start⟩

def c4Done : ServiceState :=
  ⟨true, some "u1", some "http://gw/servers/u1/mcp", some 0,
   [some "t1", some "t2"]⟩

def c4DoneSess : DbSession := ⟨c4Done, c4Done⟩

/-- The session state after the first tool of a two-operation service
was registered and the second tool request failed: the first tool id is
only in memory, the committed state is untouched. -/
def c4ErrSess : DbSession := ⟨⟨false, none, none, none, [some "t1", none]⟩, c4Start⟩

theorem claim_c4_witness :
    (c4DoneSess.committed.gatewayRegistered = true
     ∧ c4DoneSess.committed.gatewayServerUuid.isSome = true
     ∧ c4DoneSess.committed.gatewayMcpEndpoint.isSome = true)
    ∧ c4ErrSess.committed = c4Sess.committed
    ∧ (c4Sess.committed.gatewayRegistered = false
       ∧ c4Sess.committed.gatewayServerUuid = none
       ∧ c4Sess.committed.gatewayMcpEndpoint = none
       ∧ c4Sess.committed.gatewayRegisteredAt = none) := by
  refine ⟨?_, ?_, ?_⟩
  · exact (claim_c4_registration_state "http://gw" 0 [some "t1", some "t2"]
      (some "u1") c4Sess).1 c4DoneSess rfl
  · exact (claim_c4_registration_state "http://gw" 0 [some "t1", none]
      (some "u1") c4Sess).2.1 GwError.toolRequestFailed c4ErrSess rfl
  · exact (claim_c4_registration_state "http://gw" 0 [] none c4DoneSess).2.2
      true [HttpCall.deleteServer "u1"] c4Sess rfl

def c5RegState : ServiceState :=
  ⟨true, some "u1", some "http://gw/servers/u1/mcp", some 0, [some "t1"]⟩

def c5RegSess : DbSession := ⟨c5RegState, c5RegState⟩

def c5UnregState : ServiceState := ⟨false, none, none, none, [none]⟩

def c5UnregSess : DbSession := ⟨c5UnregState, c5UnregState⟩

/-- C5 (counterexample): after a successful unregistration, a second
unregistration of the same service does not return success: the gateway
client raises the not-registered `ValueError` and the endpoint answers
HTTP 409 — although, as the claim says, no HTTP DELETE is issued on the
second call. -/
theorem claim_c5_counterexample :
    unregister_service true c5RegSess
      = ([HttpCall.deleteServer "u1"], Except.ok c5UnregSess)
    ∧ unregister_service true c5UnregSess
      = ([], Except.error (GwError.notRegistered, c5UnregSess))
    ∧ unregister_from_gateway true c5UnregSess = (409, c5UnregSess, []) :=
  ⟨rfl, rfl, rfl⟩

/-- C5 (amended): repeated unregistration is rejected, not idempotent:
for every service whose state is unregistered (in particular one
unregistered by a previous call), a further unregistration issues no
HTTP DELETE and fails — the gateway client raises the not-registered
`ValueError` and the `unregister-gateway` endpoint returns HTTP 409 with
the session unchanged. -/
theorem claim_c5_unregister_twice (deleteOk : Bool) (sess : DbSession)
    (h : sess.mem.gatewayRegistered = false) :
    unregister_service deleteOk sess
      = ([], Except.error (GwError.notRegistered, sess))
    ∧ unregister_from_gateway deleteOk sess = (409, sess, []) := by
  constructor
  · unfold unregister_service
    simp [h]
  · unfold unregister_from_gateway
    simp [h]

theorem claim_c5_witness :
    unregister_service true c5UnregSess
      = ([], Except.error (GwError.notRegistered, c5UnregSess))
    ∧ unregister_from_gateway true c5UnregSess = (409, c5UnregSess, []) :=
  claim_c5_unregister_twice true c5UnregSess rfl

/-! ### Service deletion (`app.py`, `delete_service`, lines 294-331) -/

/-- A `services` row as the delete endpoint sees it. -/
structure CatalogService where
  name : String
  binding : ServiceState
deriving DecidableEq

/-- The two catalog tables relevant to deletion: `services` (id → row)
and `operations` (operation id, owning service id; `ondelete CASCADE`,
database.py line 81). -/
structure Catalog where
  services : List (Nat × CatalogService)
  operations : List (Nat × Nat)
deriving DecidableEq

/-- `DELETE /api/services/{id}` (app.py lines 294-331): 404 when the id
is absent; when the service is gateway-registered and a gateway is
configured, unregistration is attempted first and any exception from it
is caught and only logged (lines 306-315); the service row is then
deleted with cascade to its operations and committed unconditionally
(lines 317-319).  `deleteOk` models the gateway's answer to
`DELETE /servers/{uuid}` and does not influence the result; the code has
no force-local-delete flag.  Result: HTTP status, catalog after the
call, gateway calls issued. -/
def delete_service (sid : Nat) (gatewayConfigured : Bool) (deleteOk : Bool)
    (cat : Catalog) : Nat × Catalog × List HttpCall :=
  match cat.services.find? (fun p => p.1 == sid) with
  | none => (404, cat, [])
  | some q =>
      (200,
       ⟨cat.services.filter (fun p => !(p.1 == sid)),
        cat.operations.filter (fun p => !(p.2 == sid))⟩,
       if q.2.binding.gatewayRegistered && gatewayConfigured then
         match q.2.binding.gatewayServerUuid with
         | some uuid => [HttpCall.deleteServer uuid]
         | none => []
       else [])

def c6Binding : ServiceState :=
  ⟨true, some "u1", some "http://gw/servers/u1/mcp", some 0, [some "t1"]⟩

def c6Catalog : Catalog :=
  ⟨[(1, ⟨"ClaimsService", c6Binding⟩)], [(10, 1), (11, 1)]⟩

/-- C6 (counterexample): deleting a registered service while the gateway
call fails (`deleteOk = false`).  The claim says the catalog rows remain
intact and the delete is not committed; the code instead reports success
and removes the service row and both operation rows anyway. -/
theorem claim_c6_counterexample :
    delete_service 1 true false c6Catalog
      = (200, ⟨[], []⟩, [HttpCall.deleteServer "u1"])
    ∧ c6Catalog.services ≠ []
    ∧ c6Catalog.operations ≠ [] := by
  refine ⟨rfl, ?_, ?_⟩
  · simp [c6Catalog]
  · simp [c6Catalog]

/-- C6 (amended): when deleting an existing service, gateway
unregistration is attempted first exactly when the binding is registered
and a gateway is configured, but a failure of that gateway call is
swallowed: the delete succeeds (HTTP 200) and removes the service row
and its operation rows regardless of the gateway outcome — the result is
independent of the gateway answer, and no force-local-delete option
exists. -/
theorem claim_c6_delete_cascades (sid : Nat) (gatewayConfigured : Bool)
    (cat : Catalog) (q : Nat × CatalogService)
    (h : cat.services.find? (fun p => p.1 == sid) = some q) :
    (∀ deleteOk,
      delete_service sid gatewayConfigured deleteOk cat
        = (200,
           ⟨cat.services.filter (fun p => !(p.1 == sid)),
            cat.operations.filter (fun p => !(p.2 == sid))⟩,
           if q.2.binding.gatewayRegistered && gatewayConfigured then
             match q.2.binding.gatewayServerUuid with
             | some uuid => [HttpCall.deleteServer uuid]
             | none => []
           else []))
    ∧ delete_service sid gatewayConfigured true cat
        = delete_service sid gatewayConfigured false cat := by
  constructor
  · intro deleteOk
    unfold delete_service
    rw [h]
  · unfold delete_service
    rw [h]

theorem claim_c6_witness :
    delete_service 1 true true c6Catalog = delete_service 1 true false c6Catalog
    ∧ delete_service 1 true true c6Catalog
        = (200, ⟨[], []⟩, [HttpCall.deleteServer "u1"]) := by
  have h := claim_c6_delete_cascades 1 true c6Catalog
    (1, ⟨"ClaimsService", c6Binding⟩) rfl
  exact ⟨h.2, (h.1 true).trans rfl⟩
